import Mathlib

/-
  Verification development for the discord-player core (src/Player.ts).

  Shallow embedding notes:
  - The only source file provided is `src/Player.ts` (the `Player` class). Collaborator
    modules it imports (Queue, Track, Playlist, ExtractorModel, Util, QueryResolver,
    discord.js, provider scrapers) are embedded only at the interface surface Player.ts
    exercises; pieces whose behaviour a claim depends on but whose code is absent are
    explicitly marked "Modelled from the spec:".
  - External provider fetches (`YouTube.search`, `soundcloud.search`, `getSongInfo`,
    `Spotify.getData`, `getPlaylist`) are async calls that either resolve with data or
    reject; every call site in Player.search attaches `.catch(() => {})`, turning a
    rejection into `undefined`. We model each fetch outcome as an `Option` supplied by a
    `World` value: `none` is a rejected (or falsy) fetch, `some` is resolved data.
  - discord.js `Collection` values (`this.queues`, `this.extractors`) are insertion-ordered
    maps; we model them as association lists with first-match lookup and in-place update.
  - Metadata fields no claim observes (thumbnail fallback chains, description, views,
    author) are elided from the Track model to keep the embedding focused; the fields the
    claims observe (title, url, duration string, requester, source, playlist membership)
    are translated faithfully.
  - The voice-state reactor (`_handleVoiceState`) and the queue/extractor registry are
    two concerns of the same `Player` class; they are embedded as two state types
    (`ReactorState` for the reactor, `Player` for search/registry) because no claim
    spans both.
-/

namespace DiscordPlayer

/-! ## Query types (types/types.ts `QueryType`, the members Player.ts dispatches on) -/

inductive QueryType where
  | AUTO
  | YOUTUBE_SEARCH
  | YOUTUBE_VIDEO
  | YOUTUBE_PLAYLIST
  | SOUNDCLOUD_TRACK
  | SOUNDCLOUD_SEARCH
  | SOUNDCLOUD_PLAYLIST
  | SPOTIFY_SONG
  | SPOTIFY_PLAYLIST
  | SPOTIFY_ALBUM
  | ARBITRARY
deriving DecidableEq, Repr

/-! ## Time-code formatting (utils/Util.ts) -/

/-- Parts of a duration, as produced by `Util.parseMS`. -/
structure TimeParts where
  hours : Nat
  minutes : Nat
  seconds : Nat
deriving DecidableEq, Repr

/-- Modelled from the spec: `Util.parseMS` (utils/Util.ts is not part of the provided
sources). Splits a millisecond figure into hour/minute/second parts. -/
def Util.parseMS (milliseconds : Nat) : TimeParts :=
  { hours := milliseconds / 3600000
    minutes := milliseconds / 60000 % 60
    seconds := milliseconds / 1000 % 60 }

/-- Zero-pads a component to two digits, as time-code components are rendered. -/
def Util.pad2 (n : Nat) : String :=
  if n < 10 then "0" ++ toString n else toString n

/-- Modelled from the spec: `Util.buildTimeCode` (utils/Util.ts is not part of the
provided sources). Renders parsed duration parts as `m:ss` or `h:mm:ss`; per the spec,
65000 ms renders as "1:05" and 3661000 ms as "1:01:01". -/
def Util.buildTimeCode (t : TimeParts) : String :=
  if t.hours > 0 then
    toString t.hours ++ ":" ++ Util.pad2 t.minutes ++ ":" ++ Util.pad2 t.seconds
  else
    toString t.minutes ++ ":" ++ Util.pad2 t.seconds

/-! ## Query classification (utils/QueryResolver.ts) -/

/-- Containment check on character lists (written structurally so that concrete
instances evaluate by kernel reduction). -/
def strContainsAux (pat : List Char) (l : List Char) : Bool :=
  match l with
  | [] => pat.isEmpty
  | c :: rest => pat.isPrefixOf (c :: rest) || strContainsAux pat rest

/-- Whether `pre` is a prefix of `s`, over the character lists. -/
def strStartsWith (pre s : String) : Bool := pre.data.isPrefixOf s.data

/-- Whether `pat` occurs inside `s`, over the character lists. -/
def strContains (pat s : String) : Bool := strContainsAux pat.data s.data

/-- Modelled from the spec: `QueryResolver.resolve` (utils/QueryResolver.ts is not part
of the provided sources). Per spec §4.1 it is a total pure function recognizing, in
priority order, explicit Spotify track/album/playlist URLs, SoundCloud track/playlist
URLs, YouTube video/playlist URLs, and returning the generic YouTube-search kind for
everything else. -/
def QueryResolver.resolve (query : String) : QueryType :=
  if strStartsWith "https://open.spotify.com/track/" query then .SPOTIFY_SONG
  else if strStartsWith "https://open.spotify.com/album/" query then .SPOTIFY_ALBUM
  else if strStartsWith "https://open.spotify.com/playlist/" query then .SPOTIFY_PLAYLIST
  else if strStartsWith "https://soundcloud.com/" query then
    (if strContains "/sets/" query then .SOUNDCLOUD_PLAYLIST else .SOUNDCLOUD_TRACK)
  else if strContains "youtube.com/playlist" query then .YOUTUBE_PLAYLIST
  else if strContains "youtube.com/watch" query then .YOUTUBE_VIDEO
  else if strContains "youtu.be/" query then .YOUTUBE_VIDEO
  else .YOUTUBE_SEARCH

/-! ## Track / Playlist / search result model (Structures/Track.ts, Structures/Playlist.ts) -/

/-- One normalized playable item, restricted to the fields the claims observe.
`hasPlaylist` stands for the playlist back-reference being non-null. -/
structure Track where
  title : String
  url : String
  duration : String
  requestedBy : String
  source : String
  hasPlaylist : Bool
deriving DecidableEq, Repr

/-- Playlist envelope; `tracks` is assigned in a second phase after the tracks are
built (mirroring the two-phase construction in Player.search). -/
structure Playlist where
  title : String
  source : String
  tracks : List Track
deriving DecidableEq, Repr

/-- Result shape of `Player.search`: `{ playlist: Playlist | null, tracks: Track[] }`. -/
structure SearchResult where
  playlist : Option Playlist
  tracks : List Track
deriving DecidableEq, Repr

/-! ## Extractors (Structures/ExtractorModel.ts and the registry in Player.ts) -/

/-- One raw item returned by an extractor's metadata fetch (`data.data[i]`); the spread
`...m` carries its own metadata, and `m.duration` is a millisecond figure. -/
structure ExtractorTrackData where
  title : String
  url : String
  source : String
  duration : Nat
deriving DecidableEq, Repr

/-- Playlist envelope data optionally returned by an extractor (`data.playlist`). -/
structure ExtractorPlaylistData where
  title : String
  source : String
deriving DecidableEq, Repr

/-- Resolved value of `extractor.handle(query)`: optional playlist envelope plus the
result list `data`. The model returns `Option ExtractorResponse`; `none` models a falsy
resolved value (the code guards `if (data && data.data.length)`). A rejected handle
promise would reject the whole search; no claim exercises that path. -/
structure ExtractorResponse where
  playlist : Option ExtractorPlaylistData
  data : List ExtractorTrackData

/-- Modelled from the spec: `ExtractorModel` (Structures/ExtractorModel.ts is not part
of the provided sources). It carries a unique name, a capability check `validate`, and a
metadata fetch `handle` wrapping the raw object's `getInfo`. -/
structure ExtractorModel where
  name : String
  validate : String → Bool
  handle : String → Option ExtractorResponse

/-! ## Search options -/

/-- Search options. `requestedBy` is modelled as the already-resolved canonical user id
(the source resolves it via `client.users.resolve` before use). `searchEngine := none`
models the property being absent from the options object, in which case the source
assigns `QueryType.AUTO`. -/
structure SearchOptions where
  requestedBy : String
  searchEngine : Option QueryType

/-! ## Provider worlds: outcomes of the external fetches Player.search performs -/

/-- youtube-sr video result as consumed by the YOUTUBE_SEARCH / YOUTUBE_PLAYLIST
handlers: note the handler reads the provider's pre-formatted `durationFormatted`
string; `durationMs` is the provider's millisecond figure (not read by the handler). -/
structure YtVideo where
  title : String
  url : String
  durationFormatted : String
  durationMs : Nat
deriving DecidableEq, Repr

/-- Item of a `soundcloud.search(query, "track")` result: only `r.url` is consumed. -/
structure ScSearchItem where
  url : String
deriving DecidableEq, Repr

/-- soundcloud-scraper `getSongInfo` result; `duration` is in milliseconds. -/
structure ScTrackInfo where
  title : String
  url : String
  duration : Nat
deriving DecidableEq, Repr

/-- spotify-url-info `getData` result for a single song; `duration_ms` in milliseconds. -/
structure SpotifySong where
  name : String
  url : Option String
  duration_ms : Nat
deriving DecidableEq, Repr

/-- One track item of a Spotify album/playlist container. The album (`m`) and playlist
(`m.track`) field paths collapse to the same shape once extracted. -/
structure SpotifyItem where
  name : String
  url : Option String
  duration_ms : Nat
deriving DecidableEq, Repr

/-- spotify-url-info `getData` result for an album/playlist container. -/
structure SpotifyContainer where
  name : String
  items : List SpotifyItem
deriving DecidableEq, Repr

/-- One song of a SoundCloud playlist; `duration` in milliseconds. -/
structure ScPlaylistSong where
  title : String
  url : String
  duration : Nat
deriving DecidableEq, Repr

/-- soundcloud-scraper playlist result. -/
structure ScPlaylist where
  title : String
  songs : List ScPlaylistSong
deriving DecidableEq, Repr

/-- youtube-sr `getPlaylist` result (after the best-effort `ytpl.fetch()`). -/
structure YtPlaylist where
  title : String
  videos : List YtVideo
deriving DecidableEq, Repr

/-- Outcomes of every external provider fetch Player.search can perform for one query.
Each field is `none` when that fetch rejects (every call site catches the rejection into
`undefined`). `scSongInfo` is keyed by the url passed to `soundcloud.getSongInfo`.
`spotifySong` and `spotifyContainer` are the same `Spotify.getData(query)` endpoint read
at two different shapes by the two Spotify handlers. -/
structure World where
  ytSearch : Option (List YtVideo)
  scSearch : Option (List ScSearchItem)
  scSongInfo : String → Option ScTrackInfo
  spotifySong : Option SpotifySong
  spotifyContainer : Option SpotifyContainer
  scPlaylist : Option ScPlaylist
  ytPlaylist : Option YtPlaylist

/-! ## The extractor fan-out (Player.search, lines 159-184) -/

/-- Normalization of a non-empty extractor response (Player.search lines 162-182): the
playlist envelope is built first with an empty track list, the tracks are normalized with
`duration: Util.buildTimeCode(Util.parseMS(m.duration))` and the playlist back-reference,
and the envelope's tracks are assigned in a second phase. -/
def normalizeExtractorResult (o : SearchOptions) (d : ExtractorResponse) : SearchResult :=
  let hasPl := d.playlist.isSome
  let tracks := d.data.map (fun m =>
    { title := m.title
      url := m.url
      duration := Util.buildTimeCode (Util.parseMS m.duration)
      requestedBy := o.requestedBy
      source := m.source
      hasPlaylist := hasPl })
  let playlist := d.playlist.map (fun pl =>
    { title := pl.title, source := pl.source, tracks := tracks })
  { playlist := playlist, tracks := tracks }

/-- One iteration of the extractor loop body for a single extractor: skip when the
capability check rejects, skip when the fetch is falsy or its `data` list is empty,
otherwise produce the normalized result. -/
def extractorHit (o : SearchOptions) (q : String) (e : ExtractorModel) : Option SearchResult :=
  if e.validate q then
    match e.handle q with
    | some d => if d.data.isEmpty then none else some (normalizeExtractorResult o d)
    | none => none
  else none

/-- The extractor fan-out loop (Player.search lines 159-184): iterate the registry in
insertion order, returning the first extractor hit. -/
def tryExtractors (exts : List (String × ExtractorModel)) (q : String) (o : SearchOptions) :
    Option SearchResult :=
  match exts with
  | [] => none
  | (_, e) :: rest =>
    match extractorHit o q e with
    | some r => some r
    | none => tryExtractors rest q o

/-! ## Built-in source handlers (Player.search switch, lines 186-407) -/

/-- Per-item body of the SoundCloud track loop (lines 217-235): fetch song info for the
item's url; a rejected fetch is skipped (`continue`), a resolved one is normalized with
the duration recomputed via the time-code formatter. -/
def scNormalize (w : World) (o : SearchOptions) (r : ScSearchItem) : Option Track :=
  (w.scSongInfo r.url).map (fun trackInfo =>
    { title := trackInfo.title
      url := trackInfo.url
      duration := Util.buildTimeCode (Util.parseMS trackInfo.duration)
      requestedBy := o.requestedBy
      source := "soundcloud"
      hasPlaylist := false })

/-- The built-in handler switch (lines 187-407), dispatching on the effective query
type. Every provider fetch outcome comes from `w`; a `none` outcome models the
`.catch(() => {})`-swallowed rejection and yields the empty result. -/
def builtinDispatch (w : World) (qt : QueryType) (query : String) (o : SearchOptions) :
    SearchResult :=
  match qt with
  | .YOUTUBE_SEARCH =>
    -- lines 188-209: note `duration: m.durationFormatted` is taken from the provider.
    match w.ytSearch with
    | none => { playlist := none, tracks := [] }
    | some videos =>
      { playlist := none
        tracks := videos.map (fun m =>
          { title := m.title
            url := m.url
            duration := m.durationFormatted
            requestedBy := o.requestedBy
            source := "youtube"
            hasPlaylist := false }) }
  | .SOUNDCLOUD_TRACK | .SOUNDCLOUD_SEARCH =>
    -- lines 211-237: the handler re-classifies the query text; only when the text is
    -- itself a SoundCloud track URL is it used directly, otherwise a search is issued.
    let result : Option (List ScSearchItem) :=
      if QueryResolver.resolve query = .SOUNDCLOUD_TRACK then some [{ url := query }]
      else w.scSearch
    match result with
    | none => { playlist := none, tracks := [] }
    | some items =>
      if items.isEmpty then { playlist := none, tracks := [] }
      else { playlist := none, tracks := items.filterMap (scNormalize w o) }
  | .SPOTIFY_SONG =>
    -- lines 239-257
    match w.spotifySong with
    | none => { playlist := none, tracks := [] }
    | some d =>
      { playlist := none
        tracks := [{ title := d.name
                     url := d.url.getD query
                     duration := Util.buildTimeCode (Util.parseMS d.duration_ms)
                     requestedBy := o.requestedBy
                     source := "spotify"
                     hasPlaylist := false }] }
  | .SPOTIFY_PLAYLIST | .SPOTIFY_ALBUM =>
    -- lines 259-322: container built first, tracks attached in a second phase.
    match w.spotifyContainer with
    | none => { playlist := none, tracks := [] }
    | some d =>
      let tracks := d.items.map (fun m =>
        { title := m.name
          url := m.url.getD query
          duration := Util.buildTimeCode (Util.parseMS m.duration_ms)
          requestedBy := o.requestedBy
          source := "spotify"
          hasPlaylist := true })
      { playlist := some { title := d.name, source := "spotify", tracks := tracks }
        tracks := tracks }
  | .SOUNDCLOUD_PLAYLIST =>
    -- lines 324-361
    match w.scPlaylist with
    | none => { playlist := none, tracks := [] }
    | some data =>
      let tracks := data.songs.map (fun song =>
        { title := song.title
          url := song.url
          duration := Util.buildTimeCode (Util.parseMS song.duration)
          requestedBy := o.requestedBy
          source := "soundcloud"
          hasPlaylist := true })
      { playlist := some { title := data.title, source := "soundcloud", tracks := tracks }
        tracks := tracks }
  | .YOUTUBE_PLAYLIST =>
    -- lines 363-403: note `duration: video.durationFormatted` from the provider.
    match w.ytPlaylist with
    | none => { playlist := none, tracks := [] }
    | some ytpl =>
      let tracks := ytpl.videos.map (fun video =>
        { title := video.title
          url := video.url
          duration := video.durationFormatted
          requestedBy := o.requestedBy
          source := "youtube"
          hasPlaylist := true })
      { playlist := some { title := ytpl.title, source := "youtube", tracks := tracks }
        tracks := tracks }
  | _ =>
    -- line 405-406: default case
    { playlist := none, tracks := [] }

/-! ## Association-list operations mirroring discord.js Collection get/set/has -/

/-- Collection lookup (first binding wins, keys are unique in practice). -/
def assocGet {α : Type} (l : List (String × α)) (k : String) : Option α :=
  match l with
  | [] => none
  | (k', v) :: rest => if k' = k then some v else assocGet rest k

/-- Collection `set`: replace the binding in place when the key exists, append
otherwise (insertion order preserved). -/
def assocSet {α : Type} (l : List (String × α)) (k : String) (v : α) : List (String × α) :=
  match l with
  | [] => [(k, v)]
  | (k', v') :: rest => if k' = k then (k, v) :: rest else (k', v') :: assocSet rest k v

/-! ## The Player state for search / queue registry / extractor registry -/

/-- Queue construction options (types/types.ts `PlayerOptions`, restricted to the fields
Player.ts touches). `ytdlOptions := none` models the property being unset so that
`??=` assigns the process-wide default. -/
structure PlayerOptions where
  leaveOnEmpty : Bool := true
  leaveOnEmptyCooldown : Nat := 0
  ytdlOptions : Option Nat := none
  metadata : Option Nat := none
deriving DecidableEq, Repr

/-- A per-guild session as constructed by `createQueue` (Structures/Queue.ts is not part
of the provided sources; only the constructed configuration is modelled). -/
structure Queue where
  guildId : String
  options : PlayerOptions
  metadata : Option Nat
deriving DecidableEq, Repr

/-- The Player's owned state for resolution and the two registries: `extractors` and
`queues` are insertion-ordered Collections, `ytdlOptions` the process-wide default
(always set: it defaults to `{}` in the constructor). -/
structure Player where
  extractors : List (String × ExtractorModel)
  queues : List (String × Queue)
  ytdlOptions : Nat

/-- Query argument of `search`: a raw string or an already-resolved Track. -/
inductive SearchQuery where
  | str (q : String)
  | track (t : Track)

/-- Effective source kind (line 186): classify only when the effective searchEngine is
AUTO (including when the property was absent), otherwise use the caller's kind. -/
def effectiveQueryType (o : SearchOptions) (q : String) : QueryType :=
  let se := o.searchEngine.getD .AUTO
  if se = .AUTO then QueryResolver.resolve q else se

/-- `Player.search` (lines 153-408): Track short-circuit, missing-options error,
extractor fan-out, then the built-in handler switch on the effective query type. -/
def Player.search (p : Player) (w : World) (query : SearchQuery)
    (options : Option SearchOptions) : Except String SearchResult :=
  match query with
  | .track t => .ok { playlist := none, tracks := [t] }
  | .str q =>
    match options with
    | none => .error "DiscordPlayer#search needs search options!"
    | some o =>
      match tryExtractors p.extractors q o with
      | some res => .ok res
      | none => .ok (builtinDispatch w (effectiveQueryType o q) q o)

/-! ## createQueue (lines 103-116) -/

/-- Failure modes of `createQueue`: `unknownGuild` is the explicit
`throw new Error("Unknown Guild")`; `optionsDeref` is the TypeError raised by
`queueInitOptions.metadata` when `queueInitOptions` is `undefined`. -/
inductive CreateQueueError where
  | unknownGuild
  | optionsDeref
deriving DecidableEq, Repr

/-- `Player.createQueue` (lines 103-116). The `guild` argument models the result of
`client.guilds.resolve(guild)` (`none` = unresolvable). When a queue already exists for
the guild it is returned as-is; otherwise the options object is dereferenced (throwing
when it was omitted), its `metadata` is split off, `ytdlOptions` is defaulted with `??=`
from the Player-wide value, and the new queue is registered. -/
def Player.createQueue (p : Player) (guild : Option String)
    (queueInitOptions : Option PlayerOptions) : Except CreateQueueError (Queue × Player) :=
  match guild with
  | none => .error .unknownGuild
  | some gid =>
    match assocGet p.queues gid with
    | some q => .ok (q, p)
    | none =>
      match queueInitOptions with
      | none => .error .optionsDeref
      | some opts =>
        let meta := opts.metadata
        let opts := { opts with metadata := none }
        let opts := { opts with ytdlOptions := some (opts.ytdlOptions.getD p.ytdlOptions) }
        let q : Queue := { guildId := gid, options := opts, metadata := meta }
        .ok (q, { p with queues := assocSet p.queues gid q })

/-! ## use (extractor registration, lines 416-432) -/

/-- Argument of `use`: either an ExtractorModel instance, or a duck-typed raw object
whose `validate`/`getInfo` members may or may not be functions. -/
inductive ExtractorArg where
  | model (m : ExtractorModel)
  | raw (validate : Option (String → Bool)) (getInfo : Option (String → Option ExtractorResponse))

/-- `Player.use` (lines 416-432): empty name is an error; an existing name without
`force` returns the existing registration untouched; an ExtractorModel instance is
registered directly; a raw object must expose both `validate` and `getInfo` functions
and is wrapped into a new ExtractorModel (the wrapping itself is modelled from the spec,
Structures/ExtractorModel.ts being absent). -/
def Player.use (p : Player) (extractorName : String) (extractor : ExtractorArg)
    (force : Bool) : Except String (ExtractorModel × Player) :=
  if extractorName = "" then .error "Cannot use unknown extractor!"
  else
    match assocGet p.extractors extractorName, force with
    | some existing, false => .ok (existing, p)
    | _, _ =>
      match extractor with
      | .model m => .ok (m, { p with extractors := assocSet p.extractors extractorName m })
      | .raw (some vf) (some gf) =>
        let model : ExtractorModel := { name := extractorName, validate := vf, handle := gf }
        .ok (model, { p with extractors := assocSet p.extractors extractorName model })
      | .raw _ _ => .error "Invalid extractor data!"

/-! ## Voice-state reactor (_handleVoiceState, lines 66-95)

The reactor is embedded as an explicit state-transition function. A JS `setTimeout`
creates a live timer that stays pending until it fires or is passed to `clearTimeout`;
overwriting the map entry that remembers its handle does NOT cancel it. `pendingTimers`
is the multiset of live timers (tagged with the guild whose key stored them),
`nextHandle` a fresh-handle counter. `Util.isVoiceEmpty(queue.connection.channel)` is a
read of the live channel population; it enters each transition as the `channelEmpty`
input. Emissions and `queue.destroy()` calls are recorded in logs (Queue.ts is not part
of the provided sources; no claim observes destroy's internals). -/

/-- A voice-state update event, projected to the fields `_handleVoiceState` reads:
guild, changed member, old/new channel of that member. -/
structure VoiceEvent where
  guildId : String
  memberId : String
  oldChannelId : Option String
  newChannelId : Option String
deriving DecidableEq, Repr

/-- The per-guild queue as seen by the reactor: its auto-leave configuration, whether
`queue.connection && queue.connection.channel` is present, and the
`_cooldownsTimeout` entry stored under the key "empty_" ++ guildId. -/
structure ReactorQueue where
  leaveOnEmpty : Bool
  hasConnection : Bool
  leaveOnEmptyCooldown : Nat
  cooldownEntry : Option Nat
deriving DecidableEq, Repr

/-- Reactor-side Player state: the queue registry, the live JS timers, and logs of
destroy calls and emitted notifications. -/
structure ReactorState where
  queues : List (String × ReactorQueue)
  pendingTimers : List (String × Nat)
  nextHandle : Nat
  destroyCalls : List String
  botDisconnectEmits : List String
  channelEmptyEmits : List String
deriving DecidableEq, Repr

/-- `Player._handleVoiceState` (lines 66-95). `botId` is `this.client.user.id`,
`channelEmpty` the value `Util.isVoiceEmpty(queue.connection.channel)` reads at this
event. Branches, in source order: no queue → no-op; bot lost its channel → destroy and
emit botDisconnect; auto-leave off or no connection → no-op; join/still-present case →
cancel the recorded cooldown timer when the channel is occupied; member-left case →
when the channel is empty, start a fresh timer and record its handle (overwriting any
recorded one without clearing it). -/
def handleVoiceState (botId : String) (channelEmpty : Bool) (s : ReactorState)
    (ev : VoiceEvent) : ReactorState :=
  match assocGet s.queues ev.guildId with
  | none => s
  | some queue =>
    if ev.memberId = botId ∧ ev.newChannelId = none then
      { s with destroyCalls := s.destroyCalls ++ [ev.guildId]
               botDisconnectEmits := s.botDisconnectEmits ++ [ev.guildId] }
    else if queue.leaveOnEmpty = false ∨ queue.hasConnection = false then s
    else if ev.oldChannelId = none ∨ ev.newChannelId ≠ none then
      match queue.cooldownEntry with
      | some h =>
        if channelEmpty = false then
          { s with pendingTimers := s.pendingTimers.erase (ev.guildId, h)
                   queues := assocSet s.queues ev.guildId { queue with cooldownEntry := none } }
        else s
      | none => s
    else
      if channelEmpty = false then s
      else
        { s with pendingTimers := s.pendingTimers ++ [(ev.guildId, s.nextHandle)]
                 nextHandle := s.nextHandle + 1
                 queues := assocSet s.queues ev.guildId
                   { queue with cooldownEntry := some s.nextHandle } }

/-- Expiry of an empty-channel cooldown timer (the `setTimeout` callback, lines 87-92),
for the timer with handle `h` keyed under guild `gid`. The fired timer is spent in every
case; the callback then re-checks channel emptiness and registry membership and only
when both hold destroys the queue and emits channelEmpty. Note the callback neither
deletes the `_cooldownsTimeout` map entry nor touches other timers. -/
def emptyTimeoutExpire (channelEmpty : Bool) (s : ReactorState) (gid : String)
    (h : Nat) : ReactorState :=
  let s' := { s with pendingTimers := s.pendingTimers.erase (gid, h) }
  if channelEmpty = false then s'
  else if (assocGet s'.queues gid).isNone then s'
  else
    { s' with destroyCalls := s'.destroyCalls ++ [gid]
              channelEmptyEmits := s'.channelEmptyEmits ++ [gid] }

/-! ## Concrete data used by witnesses and counterexamples -/

/-- A world in which every provider fetch rejects. -/
def wNone : World :=
  { ytSearch := none, scSearch := none, scSongInfo := fun _ => none,
    spotifySong := none, spotifyContainer := none, scPlaylist := none, ytPlaylist := none }

/-- A YouTube-search world whose single video carries a provider-formatted duration
string ("9:99") that disagrees with the time-code formatter's rendering of the video's
own millisecond duration (65000 ms renders as "1:05"). -/
def wYT : World :=
  { wNone with ytSearch := some [{ title := "vid", url := "https://youtube.com/watch?v=abc",
                                   durationFormatted := "9:99", durationMs := 65000 }] }

/-- A SoundCloud world: searching finds one track url, and song info resolves only for
that found url (in particular not for the raw text "hello world"). -/
def wSC : World :=
  { wNone with
    scSearch := some [{ url := "https://soundcloud.com/found/track1" }]
    scSongInfo := fun u =>
      if u = "https://soundcloud.com/found/track1" then
        some { title := "Found Track", url := "https://soundcloud.com/found/track1",
               duration := 90000 }
      else none }

/-- A player with no extractors and no queues. -/
def pEmpty : Player := { extractors := [], queues := [], ytdlOptions := 0 }

/-- An extractor whose capability check accepts every query and whose fetch always
yields exactly one track. -/
def extAllData : ExtractorTrackData :=
  { title := "ExtTrack", url := "https://ext.example/1", source := "ext", duration := 65000 }

def extAll : ExtractorModel :=
  { name := "ExtAll"
    validate := fun _ => true
    handle := fun _ => some { playlist := none, data := [extAllData] } }

/-- A second, observably different extractor for re-registration tests. -/
def extOther : ExtractorModel :=
  { name := "ExtAll"
    validate := fun _ => false
    handle := fun _ => none }

/-- A player with the always-matching extractor registered. -/
def pExt : Player := { extractors := [("ExtAll", extAll)], queues := [], ytdlOptions := 0 }

/-- Options with searchEngine left to default to AUTO. -/
def oAuto : SearchOptions := { requestedBy := "user1", searchEngine := none }

/-- Options forcing the YouTube-search kind. -/
def oYT : SearchOptions := { requestedBy := "user1", searchEngine := some .YOUTUBE_SEARCH }

/-- Options forcing the SoundCloud-track kind. -/
def oSCT : SearchOptions := { requestedBy := "user1", searchEngine := some .SOUNDCLOUD_TRACK }

/-- The single normalized track the always-matching extractor produces. -/
def rExt : SearchResult :=
  { playlist := none
    tracks := [{ title := "ExtTrack", url := "https://ext.example/1", duration := "1:05",
                 requestedBy := "user1", source := "ext", hasPlaylist := false }] }

/-- The YouTube track produced from `wYT`, carrying the provider's "9:99" string. -/
def tYT : Track :=
  { title := "vid", url := "https://youtube.com/watch?v=abc", duration := "9:99",
    requestedBy := "user1", source := "youtube", hasPlaylist := false }

/-- The SoundCloud track produced from `wSC`'s search result. -/
def tSC : Track :=
  { title := "Found Track", url := "https://soundcloud.com/found/track1", duration := "1:30",
    requestedBy := "user1", source := "soundcloud", hasPlaylist := false }

/-- A registered reactor queue with auto-leave on, a live connection, and a recorded
pending cooldown timer (handle 0). -/
def qReg : ReactorQueue :=
  { leaveOnEmpty := true, hasConnection := true, leaveOnEmptyCooldown := 300000,
    cooldownEntry := some 0 }

/-- A reactor state with one registered guild "g" whose cooldown timer 0 is pending. -/
def sReg : ReactorState :=
  { queues := [("g", qReg)], pendingTimers := [("g", 0)], nextHandle := 1,
    destroyCalls := [], botDisconnectEmits := [], channelEmptyEmits := [] }

/-- A registered reactor queue with auto-leave on, a connection, and no timer yet. -/
def qInit : ReactorQueue :=
  { leaveOnEmpty := true, hasConnection := true, leaveOnEmptyCooldown := 300000,
    cooldownEntry := none }

/-- Initial reactor state for guild "g": no timers pending. -/
def sInit : ReactorState :=
  { queues := [("g", qInit)], pendingTimers := [], nextHandle := 0,
    destroyCalls := [], botDisconnectEmits := [], channelEmptyEmits := [] }

/-- Member alice leaves a channel of guild "g" (not the bot). -/
def evLeave1 : VoiceEvent :=
  { guildId := "g", memberId := "alice", oldChannelId := some "c1", newChannelId := none }

/-- Member carol leaves a different channel of guild "g" while the bot's channel is
already empty — a later departure elsewhere in the guild. -/
def evLeave2 : VoiceEvent :=
  { guildId := "g", memberId := "carol", oldChannelId := some "c2", newChannelId := none }

/-- The bot's own connection loses its channel in guild "g". -/
def evBotGone : VoiceEvent :=
  { guildId := "g", memberId := "bot", oldChannelId := some "c1", newChannelId := none }

/-- Failure of the primary provider fetch performed by the handler that query type `qt`
dispatches to (each call site turns a rejection into `undefined` via `.catch`). For the
shared SoundCloud handler the primary fetch is `getSongInfo(query)` when the text
classifies as a track URL and `soundcloud.search` otherwise; the kinds that hit the
default switch case perform no fetch. -/
def primaryFetchFailed (w : World) (qt : QueryType) (q : String) : Prop :=
  match qt with
  | .YOUTUBE_SEARCH => w.ytSearch = none
  | .SOUNDCLOUD_TRACK | .SOUNDCLOUD_SEARCH =>
    if QueryResolver.resolve q = .SOUNDCLOUD_TRACK then w.scSongInfo q = none
    else w.scSearch = none
  | .SPOTIFY_SONG => w.spotifySong = none
  | .SPOTIFY_PLAYLIST | .SPOTIFY_ALBUM => w.spotifyContainer = none
  | .SOUNDCLOUD_PLAYLIST => w.scPlaylist = none
  | .YOUTUBE_PLAYLIST => w.ytPlaylist = none
  | _ => True

/-- An existing queue for guild "g" with a distinctive configuration. -/
def qExisting : Queue :=
  { guildId := "g"
    options := { leaveOnEmpty := false, leaveOnEmptyCooldown := 5000,
                 ytdlOptions := some 7, metadata := none }
    metadata := some 42 }

/-- A player whose registry already holds `qExisting` for guild "g". -/
def pWithQueue : Player := { extractors := [], queues := [("g", qExisting)], ytdlOptions := 0 }

/-! # Theorems -/

/-- The extractor loop is the first-hit scan of the registration-ordered list. -/
theorem tryExtractors_eq_findSome (exts : List (String × ExtractorModel)) (q : String)
    (o : SearchOptions) :
    tryExtractors exts q o = exts.findSome? (fun e => extractorHit o q e.2) := by
  induction exts with
  | nil => rfl
  | cons e rest ih =>
    obtain ⟨n, ex⟩ := e
    rw [tryExtractors, List.findSome?_cons]
    cases extractorHit o q ex <;> simp [ih]

/-- C1: if some registered extractor's capability check accepts the query and its fetch
yields a non-empty result list, the first such extractor in registration order
determines the outcome of `search` — the result is its normalized tracks (with playlist
envelope when provided), independent of every provider world, so no built-in handler is
consulted; the built-in dispatch runs exactly when no registered extractor produces a
non-empty result. -/
theorem extractor_registry_priority (p : Player) (q : String) (o : SearchOptions) :
    (∀ r, p.extractors.findSome? (fun e => extractorHit o q e.2) = some r →
       ∀ w, Player.search p w (.str q) (some o) = .ok r)
    ∧ (p.extractors.findSome? (fun e => extractorHit o q e.2) = none →
       ∀ w, Player.search p w (.str q) (some o) =
         .ok (builtinDispatch w (effectiveQueryType o q) q o)) := by
  constructor
  · intro r hr w
    simp [Player.search, tryExtractors_eq_findSome, hr]
  · intro hn w
    simp [Player.search, tryExtractors_eq_findSome, hn]

/-- C1 witness: with the always-matching extractor registered, searching an arbitrary
text in a world where every provider fetch rejects still yields exactly the extractor's
normalized track. -/
theorem extractor_registry_priority_witness :
    Player.search pExt wNone (.str "anything at all") (some oAuto) = .ok rExt :=
  (extractor_registry_priority pExt "anything at all" oAuto).1 rExt (by decide) wNone

/-- C5: when the query falls through to a built-in handler and that handler's provider
fetch rejects, `search` resolves with the empty result `{playlist := none, tracks := []}`
rather than propagating the provider error (every fetch rejection is caught into
`undefined` at the call site). -/
theorem provider_failure_absorbed (p : Player) (w : World) (q : String) (o : SearchOptions)
    (hext : tryExtractors p.extractors q o = none)
    (hfail : primaryFetchFailed w (effectiveQueryType o q) q) :
    Player.search p w (.str q) (some o) = .ok { playlist := none, tracks := [] } := by
  simp only [Player.search, hext]
  generalize hqt : effectiveQueryType o q = qt at hfail
  cases qt
  case AUTO => rfl
  case YOUTUBE_VIDEO => rfl
  case ARBITRARY => rfl
  case YOUTUBE_SEARCH =>
    simp only [primaryFetchFailed] at hfail
    simp [builtinDispatch, hfail]
  case SPOTIFY_SONG =>
    simp only [primaryFetchFailed] at hfail
    simp [builtinDispatch, hfail]
  case SPOTIFY_PLAYLIST =>
    simp only [primaryFetchFailed] at hfail
    simp [builtinDispatch, hfail]
  case SPOTIFY_ALBUM =>
    simp only [primaryFetchFailed] at hfail
    simp [builtinDispatch, hfail]
  case SOUNDCLOUD_PLAYLIST =>
    simp only [primaryFetchFailed] at hfail
    simp [builtinDispatch, hfail]
  case YOUTUBE_PLAYLIST =>
    simp only [primaryFetchFailed] at hfail
    simp [builtinDispatch, hfail]
  case SOUNDCLOUD_TRACK =>
    simp only [primaryFetchFailed] at hfail
    simp only [builtinDispatch]
    split at hfail
    · rename_i hres
      simp [hres, scNormalize, hfail]
    · rename_i hres
      simp [if_neg hres, hfail]
  case SOUNDCLOUD_SEARCH =>
    simp only [primaryFetchFailed] at hfail
    simp only [builtinDispatch]
    split at hfail
    · rename_i hres
      simp [hres, scNormalize, hfail]
    · rename_i hres
      simp [if_neg hres, hfail]

/-- C5 witness: with no extractors and a world where every fetch rejects, an auto
query (classified as YouTube search) resolves to the empty result. -/
theorem provider_failure_absorbed_witness :
    Player.search pEmpty wNone (.str "some text") (some oYT) =
      .ok { playlist := none, tracks := [] } :=
  provider_failure_absorbed pEmpty wNone "some text" oYT rfl
    (rfl : wNone.ytSearch = none)

/-- C6: when an empty-channel cooldown timer fires, the queue is destroyed and the
channelEmpty notification emitted exactly when the channel is still empty and the
session is still registered at expiry; when either re-check fails the callback changes
nothing (the fired timer itself is spent in every case) and the session survives. -/
theorem empty_cooldown_expiry_recheck (ce : Bool) (s : ReactorState) (gid : String)
    (h : Nat) :
    (((emptyTimeoutExpire ce s gid h).destroyCalls = s.destroyCalls ++ [gid]) ↔
       (ce = true ∧ (assocGet s.queues gid).isSome = true))
    ∧ (((emptyTimeoutExpire ce s gid h).channelEmptyEmits = s.channelEmptyEmits ++ [gid]) ↔
       (ce = true ∧ (assocGet s.queues gid).isSome = true))
    ∧ (¬(ce = true ∧ (assocGet s.queues gid).isSome = true) →
        (emptyTimeoutExpire ce s gid h).destroyCalls = s.destroyCalls
        ∧ (emptyTimeoutExpire ce s gid h).channelEmptyEmits = s.channelEmptyEmits
        ∧ (emptyTimeoutExpire ce s gid h).queues = s.queues) := by
  unfold emptyTimeoutExpire
  cases ce <;> cases hreg : (assocGet s.queues gid) <;> simp_all

/-- C6 witness: with the channel still empty and guild "g" still registered, expiry of
timer 0 destroys the queue. -/
theorem empty_cooldown_expiry_recheck_witness :
    (emptyTimeoutExpire true sReg "g" 0).destroyCalls = sReg.destroyCalls ++ ["g"] :=
  (empty_cooldown_expiry_recheck true sReg "g" 0).1.mpr ⟨rfl, rfl⟩

/-- C7: when the changed member is the bot itself and its new state has no channel, and
a queue is registered for the guild, the reactor destroys the queue and emits
botDisconnect immediately; the rest of the state — pending timers and every queue's
cooldown entry included — is untouched, so none of the empty-channel logic runs, even
with a cooldown timer pending. -/
theorem forced_disconnect_destroys_immediately (botId : String) (ce : Bool)
    (s : ReactorState) (ev : VoiceEvent) (q : ReactorQueue)
    (hq : assocGet s.queues ev.guildId = some q)
    (hbot : ev.memberId = botId) (hchan : ev.newChannelId = none) :
    handleVoiceState botId ce s ev =
      { s with destroyCalls := s.destroyCalls ++ [ev.guildId]
               botDisconnectEmits := s.botDisconnectEmits ++ [ev.guildId] } := by
  simp [handleVoiceState, hq, hbot, hchan]

/-- C7 witness: the bot losing its channel in guild "g" while cooldown timer 0 is
pending destroys the queue at once and leaves the timer state untouched. -/
theorem forced_disconnect_destroys_immediately_witness :
    handleVoiceState "bot" true sReg evBotGone =
      { sReg with destroyCalls := sReg.destroyCalls ++ ["g"]
                  botDisconnectEmits := sReg.botDisconnectEmits ++ ["g"] } :=
  forced_disconnect_destroys_immediately "bot" true sReg evBotGone qReg rfl rfl rfl

/-- C8: when a queue is already registered for the resolved guild, `createQueue`
returns that identical queue object and the player state — registry included — is
unchanged, whatever options the second call supplies. -/
theorem createQueue_returns_existing (p : Player) (gid : String) (q : Queue)
    (opts : Option PlayerOptions) (hq : assocGet p.queues gid = some q) :
    Player.createQueue p (some gid) opts = .ok (q, p) := by
  simp [Player.createQueue, hq]

/-- C8 witness: re-opening guild "g" with different options returns the original queue
(original configuration retained) and the registry is untouched. -/
theorem createQueue_returns_existing_witness :
    Player.createQueue pWithQueue (some "g")
      (some { leaveOnEmpty := true, leaveOnEmptyCooldown := 0,
              ytdlOptions := none, metadata := some 99 }) = .ok (qExisting, pWithQueue) :=
  createQueue_returns_existing pWithQueue "g" qExisting _ rfl

/-- C9: registering under an already-taken extractor name with force = false returns the
originally registered model unchanged and leaves the whole player — registry included —
unmodified; the newly supplied resolver is never installed. -/
theorem use_first_registration_wins (p : Player) (extractorName : String)
    (m : ExtractorModel) (arg : ExtractorArg)
    (hreg : assocGet p.extractors extractorName = some m)
    (hname : extractorName ≠ "") :
    Player.use p extractorName arg false = .ok (m, p) := by
  simp [Player.use, hname, hreg]

/-- C9 witness: re-registering "ExtAll" with a different resolver and force = false
returns the first registration and the registry is unchanged. -/
theorem use_first_registration_wins_witness :
    Player.use pExt "ExtAll" (.model extOther) false = .ok (extAll, pExt) :=
  use_first_registration_wins pExt "ExtAll" extAll (.model extOther) rfl (by decide)

/-- C10: for a resolvable guild with no existing queue, calling `createQueue` with the
options argument omitted fails with the error modelling the TypeError raised by
dereferencing `queueInitOptions.metadata` on undefined — no queue with default
configuration is created; a new queue is constructed exactly when an options object is
supplied. -/
theorem createQueue_undefined_options_throws (p : Player) (gid : String)
    (hq : assocGet p.queues gid = none) :
    Player.createQueue p (some gid) none = .error .optionsDeref
    ∧ ∀ opts : PlayerOptions, ∃ q p',
        Player.createQueue p (some gid) (some opts) = .ok (q, p') := by
  constructor
  · simp [Player.createQueue, hq]
  · intro opts
    simp only [Player.createQueue, hq]
    exact ⟨_, _, rfl⟩

/-- C10 witness: on an empty registry, omitting the options object raises the
dereference error. -/
theorem createQueue_undefined_options_throws_witness :
    Player.createQueue pEmpty (some "g2") none = .error .optionsDeref :=
  (createQueue_undefined_options_throws pEmpty "g2" rfl).1

/-- C2 counterexample: the YouTube search handler stores the provider's pre-formatted
duration string verbatim. In a world whose single video carries durationFormatted "9:99"
and millisecond duration 65000, the resolved track's duration is "9:99", which is not
the time-code formatter's rendering ("1:05") of the video's own millisecond value — so
duration is not derived through the single deterministic formatter. -/
theorem duration_formatter_counterexample :
    Player.search pEmpty wYT (.str "some query") (some oYT) =
      .ok { playlist := none, tracks := [tYT] }
    ∧ tYT.duration = "9:99"
    ∧ Util.buildTimeCode (Util.parseMS 65000) = "1:05"
    ∧ tYT.duration ≠ Util.buildTimeCode (Util.parseMS 65000) := by
  refine ⟨rfl, rfl, by decide, by decide⟩

/-- C2 amended: every Track produced by a built-in handler other than the two YouTube
handlers carries as its duration the time-code formatter applied to the millisecond
figure of the very source item it was normalized from (the item is pinned by its other
fields: the fetched Spotify song/container item, the fetched SoundCloud song info or
playlist song); the YouTube search and YouTube playlist handlers instead store their
source video's pre-formatted `durationFormatted` string verbatim. -/
theorem duration_formatter_non_youtube (w : World) (q : String) (o : SearchOptions) :
    (∀ t ∈ (builtinDispatch w .SPOTIFY_SONG q o).tracks,
       ∃ d, w.spotifySong = some d
         ∧ t.duration = Util.buildTimeCode (Util.parseMS d.duration_ms)
         ∧ t.title = d.name)
    ∧ (∀ qt, (qt = QueryType.SPOTIFY_PLAYLIST ∨ qt = QueryType.SPOTIFY_ALBUM) →
        ∀ t ∈ (builtinDispatch w qt q o).tracks,
          ∃ d, w.spotifyContainer = some d ∧ ∃ m ∈ d.items,
            t.duration = Util.buildTimeCode (Util.parseMS m.duration_ms)
            ∧ t.title = m.name)
    ∧ (∀ qt, (qt = QueryType.SOUNDCLOUD_TRACK ∨ qt = QueryType.SOUNDCLOUD_SEARCH) →
        ∀ t ∈ (builtinDispatch w qt q o).tracks,
          ∃ info : ScTrackInfo, (∃ u, w.scSongInfo u = some info)
            ∧ t.duration = Util.buildTimeCode (Util.parseMS info.duration)
            ∧ t.title = info.title ∧ t.url = info.url)
    ∧ (∀ t ∈ (builtinDispatch w .SOUNDCLOUD_PLAYLIST q o).tracks,
        ∃ data, w.scPlaylist = some data ∧ ∃ song ∈ data.songs,
          t.duration = Util.buildTimeCode (Util.parseMS song.duration)
          ∧ t.title = song.title ∧ t.url = song.url)
    ∧ (∀ t ∈ (builtinDispatch w .YOUTUBE_SEARCH q o).tracks,
        ∃ vids, w.ytSearch = some vids ∧ ∃ v ∈ vids,
          t.duration = v.durationFormatted ∧ t.title = v.title ∧ t.url = v.url)
    ∧ (∀ t ∈ (builtinDispatch w .YOUTUBE_PLAYLIST q o).tracks,
        ∃ ytpl, w.ytPlaylist = some ytpl ∧ ∃ v ∈ ytpl.videos,
          t.duration = v.durationFormatted ∧ t.title = v.title ∧ t.url = v.url) := by
  have hsc : ∀ items : List ScSearchItem, ∀ t : Track,
      t ∈ items.filterMap (scNormalize w o) →
      ∃ info : ScTrackInfo, (∃ u, w.scSongInfo u = some info)
        ∧ t.duration = Util.buildTimeCode (Util.parseMS info.duration)
        ∧ t.title = info.title ∧ t.url = info.url := by
    intro items t hmem
    rw [List.mem_filterMap] at hmem
    obtain ⟨r, _, hfr⟩ := hmem
    unfold scNormalize at hfr
    rw [Option.map_eq_some'] at hfr
    obtain ⟨info, hinfo, hft⟩ := hfr
    exact ⟨info, ⟨r.url, hinfo⟩, by rw [← hft], by rw [← hft], by rw [← hft]⟩
  refine ⟨?_, ?_, ?_, ?_, ?_, ?_⟩
  · -- SPOTIFY_SONG
    intro t ht
    simp only [builtinDispatch] at ht
    rcases hres : w.spotifySong with _ | d <;> rw [hres] at ht
    · simp at ht
    · simp only [List.mem_singleton] at ht
      exact ⟨d, rfl, by rw [ht], by rw [ht]⟩
  · -- SPOTIFY_PLAYLIST / SPOTIFY_ALBUM
    intro qt hqt t ht
    rcases hqt with h | h
    · subst h
      simp only [builtinDispatch] at ht
      rcases hres : w.spotifyContainer with _ | d <;> rw [hres] at ht
      · simp at ht
      · simp only [List.mem_map] at ht
        obtain ⟨m, hm, heq⟩ := ht
        exact ⟨d, rfl, m, hm, by rw [← heq], by rw [← heq]⟩
    · subst h
      simp only [builtinDispatch] at ht
      rcases hres : w.spotifyContainer with _ | d <;> rw [hres] at ht
      · simp at ht
      · simp only [List.mem_map] at ht
        obtain ⟨m, hm, heq⟩ := ht
        exact ⟨d, rfl, m, hm, by rw [← heq], by rw [← heq]⟩
  · -- SOUNDCLOUD_TRACK / SOUNDCLOUD_SEARCH
    intro qt hqt t ht
    rcases hqt with h | h
    · subst h
      simp only [builtinDispatch] at ht
      rcases hres : (if QueryResolver.resolve q = QueryType.SOUNDCLOUD_TRACK
          then some [({ url := q } : ScSearchItem)] else w.scSearch) with _ | items <;>
        rw [hres] at ht
      · simp at ht
      · by_cases he : items.isEmpty <;>
          simp only [he, if_pos, if_neg, if_true, if_false] at ht
        · simp at ht
        · exact hsc items t ht
    · subst h
      simp only [builtinDispatch] at ht
      rcases hres : (if QueryResolver.resolve q = QueryType.SOUNDCLOUD_TRACK
          then some [({ url := q } : ScSearchItem)] else w.scSearch) with _ | items <;>
        rw [hres] at ht
      · simp at ht
      · by_cases he : items.isEmpty <;>
          simp only [he, if_pos, if_neg, if_true, if_false] at ht
        · simp at ht
        · exact hsc items t ht
  · -- SOUNDCLOUD_PLAYLIST
    intro t ht
    simp only [builtinDispatch] at ht
    rcases hres : w.scPlaylist with _ | data <;> rw [hres] at ht
    · simp at ht
    · simp only [List.mem_map] at ht
      obtain ⟨song, hsong, heq⟩ := ht
      exact ⟨data, rfl, song, hsong, by rw [← heq], by rw [← heq], by rw [← heq]⟩
  · -- YOUTUBE_SEARCH
    intro t ht
    simp only [builtinDispatch] at ht
    rcases hres : w.ytSearch with _ | vids <;> rw [hres] at ht
    · simp at ht
    · simp only [List.mem_map] at ht
      obtain ⟨v, hv, heq⟩ := ht
      exact ⟨vids, rfl, v, hv, by rw [← heq], by rw [← heq], by rw [← heq]⟩
  · -- YOUTUBE_PLAYLIST
    intro t ht
    simp only [builtinDispatch] at ht
    rcases hres : w.ytPlaylist with _ | ytpl <;> rw [hres] at ht
    · simp at ht
    · simp only [List.mem_map] at ht
      obtain ⟨v, hv, heq⟩ := ht
      exact ⟨ytpl, rfl, v, hv, by rw [← heq], by rw [← heq], by rw [← heq]⟩

/-- C2 amended witness: the SoundCloud search handler's track from `wSC` carries the
formatter's rendering of the fetched song info's own millisecond figure, the info item
being pinned by title and url. -/
theorem duration_formatter_non_youtube_witness :
    ∃ info : ScTrackInfo, (∃ u, wSC.scSongInfo u = some info)
      ∧ tSC.duration = Util.buildTimeCode (Util.parseMS info.duration)
      ∧ tSC.title = info.title ∧ tSC.url = info.url :=
  (duration_formatter_non_youtube wSC "hello" oSCT).2.2.1 QueryType.SOUNDCLOUD_SEARCH
    (Or.inr rfl) tSC (by decide)

/-- C3 counterexample: forcing the SoundCloud-track kind on the text "hello world",
which is not a SoundCloud track URL, does not take the single-track path: the handler
re-classifies the text and performs a SoundCloud search — the resolved track is the
search result (its url differs from the query), and the forced-track dispatch coincides
with the SoundCloud-search dispatch at this input. -/
theorem forced_soundcloud_kind_counterexample :
    Player.search pEmpty wSC (.str "hello world") (some oSCT) =
      .ok { playlist := none, tracks := [tSC] }
    ∧ tSC.url ≠ "hello world"
    ∧ builtinDispatch wSC .SOUNDCLOUD_TRACK "hello world" oSCT =
        builtinDispatch wSC .SOUNDCLOUD_SEARCH "hello world" oSCT := by
  refine ⟨rfl, by decide, rfl⟩

/-- C3 amended: a caller-specified non-auto searchEngine is dispatched on directly (the
switch never re-classifies), but the shared SoundCloud track/search handler internally
re-classifies the query text: when the text is not a SoundCloud track URL, the
forced-track kind computes its result from the SoundCloud search fetch (degrading to a
search) rather than treating the query as a track URL. -/
theorem forced_kind_dispatch_amended (p : Player) (w : World) (q : String)
    (o : SearchOptions) (k : QueryType)
    (hse : o.searchEngine = some k) (hk : k ≠ .AUTO)
    (hext : tryExtractors p.extractors q o = none) :
    Player.search p w (.str q) (some o) = .ok (builtinDispatch w k q o)
    ∧ (QueryResolver.resolve q ≠ .SOUNDCLOUD_TRACK →
        builtinDispatch w .SOUNDCLOUD_TRACK q o =
          (match w.scSearch with
           | none => { playlist := none, tracks := [] }
           | some items =>
             if items.isEmpty then { playlist := none, tracks := [] }
             else { playlist := none, tracks := items.filterMap (scNormalize w o) })) := by
  constructor
  · simp [Player.search, hext, effectiveQueryType, hse, hk]
  · intro hres
    simp only [builtinDispatch, if_neg hres]

/-- C3 amended witness: forcing the SoundCloud-track kind on "zzz" dispatches to the
SoundCloud handler directly (no top-level classification). -/
theorem forced_kind_dispatch_amended_witness :
    Player.search pEmpty wSC (.str "zzz") (some oSCT) =
      .ok (builtinDispatch wSC .SOUNDCLOUD_TRACK "zzz" oSCT) :=
  (forced_kind_dispatch_amended pEmpty wSC "zzz" oSCT .SOUNDCLOUD_TRACK rfl
    (by decide) rfl).1

/-- C4 counterexample: the reactor stacks timers. From the initial state, alice leaving
(bot's channel empty) starts timer 0; carol then leaving another channel of the guild
while the bot's channel is still empty starts timer 1 although timer 0 is still pending
— two pending cooldown timers for guild "g" exist at once. -/
theorem cooldown_timer_stacking_counterexample :
    (handleVoiceState "bot" true sInit evLeave1).pendingTimers = [("g", 0)]
    ∧ (handleVoiceState "bot" true (handleVoiceState "bot" true sInit evLeave1)
        evLeave2).pendingTimers = [("g", 0), ("g", 1)] := by
  refine ⟨by decide, by decide⟩

/-- C4 amended: the cooldown map records at most one timer handle per guild (a single
`empty_` key), but the reactor does not guarantee at most one pending timer per guild:
a member-left event observed while the bot's channel is empty always starts a fresh
timer, appending it to the pending timers and overwriting the recorded handle, without
cancelling any previously pending timer. -/
theorem cooldown_timer_start_overwrites_amended (botId : String) (s : ReactorState)
    (ev : VoiceEvent) (q : ReactorQueue)
    (hq : assocGet s.queues ev.guildId = some q)
    (hmem : ev.memberId ≠ botId)
    (hloe : q.leaveOnEmpty = true) (hconn : q.hasConnection = true)
    (hold : ev.oldChannelId ≠ none) (hnew : ev.newChannelId = none) :
    handleVoiceState botId true s ev =
      { s with pendingTimers := s.pendingTimers ++ [(ev.guildId, s.nextHandle)]
               nextHandle := s.nextHandle + 1
               queues := assocSet s.queues ev.guildId
                 { q with cooldownEntry := some s.nextHandle } } := by
  simp [handleVoiceState, hq, hmem, hloe, hconn, hold, hnew]

/-- C4 amended witness: a leave event in guild "g" while timer 0 is still pending starts
timer 1 — the prior timer stays in the pending list, only the recorded handle changes. -/
theorem cooldown_timer_start_overwrites_amended_witness :
    handleVoiceState "bot" true sReg evLeave2 =
      { sReg with pendingTimers := sReg.pendingTimers ++ [("g", 1)]
                  nextHandle := 2
                  queues := assocSet sReg.queues "g" { qReg with cooldownEntry := some 1 } } :=
  cooldown_timer_start_overwrites_amended "bot" sReg evLeave2 qReg rfl
    (by decide) rfl rfl (by decide) rfl

end DiscordPlayer
